import Mathlib

/-!
Shallow embedding of `src/basic_futures_bot.py`.

Modelling conventions:
* Python strings are Lean `String`s restricted to an ASCII model: `str.strip`,
  `str.upper` and `str.lower` are modelled on the ASCII whitespace characters
  and the basic latin letters (the repository only ever feeds ASCII data
  through them).
* Python `float` values are modelled by `PyFloat`: a rational number, or one of
  the IEEE-754 special values `inf`, `-inf`, `nan` that `float(str)` can
  produce.  `float(str)` parsing is modelled by `pyFloatOfString`, including
  sign, decimal/exponent notation, `_` digit separators, `inf`/`infinity`/`nan`
  and overflow/underflow to `inf`/`0.0`.  Rounding of an in-range mantissa to
  the nearest double is not modelled (it never changes the sign or zeroness of
  the value, which is all the program inspects).
* A Python function raising `ValueError`/`TradingBotError` is modelled as
  `Except String α` where the `String` is the exception message.
* The external `python-binance` client is modelled as a function argument
  returning `Except ClientExc α`; `ClientExc` carries `str(e)` of the raised
  exception.
* The payload dict built by `BasicBot._build_order_payload` is modelled by the
  structure `Payload`; an `Option` field being `none` means the dict key is
  absent.  (For the intents the claims are about, the `price`/`stopPrice`
  values written into the dict are never Python `None`, so the model does not
  need to distinguish a missing key from a key mapped to `None`.)
-/

deriving instance DecidableEq for Except

namespace BasicFuturesBot

/-- ASCII model of the whitespace characters stripped by Python `str.strip()`
(space, tab, newline, carriage return, vertical tab, form feed). -/
def pyIsSpace (c : Char) : Bool :=
  c.toNat = 32 || c.toNat = 9 || c.toNat = 10 || c.toNat = 13 || c.toNat = 11 || c.toNat = 12

/-- Strip `pyIsSpace` characters from both ends of a character list. -/
def stripChars (l : List Char) : List Char :=
  ((l.dropWhile pyIsSpace).reverse.dropWhile pyIsSpace).reverse

/-- Model of Python `str.strip()`. -/
def pyStrip (s : String) : String := ⟨stripChars s.data⟩

/-- Model of Python `str.upper()` (ASCII: `Char.toUpper` is exactly Python's
uppercasing on the basic latin range, the only characters this program ever
uppercases). -/
def pyUpper (s : String) : String := ⟨s.data.map Char.toUpper⟩

/-- Model of Python `str.lower()` (ASCII, as for `pyUpper`). -/
def pyLower (s : String) : String := ⟨s.data.map Char.toLower⟩

/-- Model of a Python `float` value: a finite rational, or one of the
special values that `float(str)` can produce. -/
inductive PyFloat where
  | finite (q : ℚ)
  | inf
  | negInf
  | nan
deriving DecidableEq, Repr

/-- Python comparison `f <= 0` on a float (`False` for `nan`). -/
def PyFloat.le0 : PyFloat → Bool
  | .finite q => decide (q ≤ 0)
  | .inf => false
  | .negInf => true
  | .nan => false

/-- Python comparison `f > 0` on a float (`False` for `nan`): "is a positive
float". -/
def PyFloat.gt0 : PyFloat → Bool
  | .finite q => decide (0 < q)
  | .inf => true
  | .negInf => false
  | .nan => false

/-- CPython's `_` handling in numeric strings: every underscore must be
immediately preceded and followed by a digit; when so, the underscores are
removed before parsing, otherwise parsing fails.  `st` is 1 when the previous
character was a digit, 2 when it was an underscore, 0 otherwise. -/
def remUnd : Nat → List Char → Option (List Char)
  | st, [] => if st = 2 then none else some []
  | st, c :: rest =>
    if c = '_' then
      if st = 1 then remUnd 2 rest else none
    else if c.isDigit then
      (remUnd 1 rest).map (c :: ·)
    else if st = 2 then none
    else (remUnd 0 rest).map (c :: ·)

/-- Lex a run of decimal digits.  Returns the accumulated value, the number of
digits consumed, and the unconsumed rest. -/
def lexDigits : List Char → Nat → Nat → Nat × Nat × List Char
  | [], acc, n => (acc, n, [])
  | c :: rest, acc, n =>
    if c.isDigit then lexDigits rest (acc * 10 + (c.toNat - 48)) (n + 1)
    else (acc, n, c :: rest)

/-- Read an optional leading sign; returns `true` for a minus sign. -/
def readSign : List Char → Bool × List Char
  | '-' :: r => (true, r)
  | '+' :: r => (false, r)
  | r => (false, r)

/-- Parse an optional exponent suffix `e[+-]digits` that must consume the whole
rest of the input, adjusting the decimal exponent `exp10` of the mantissa
`mant` accordingly. -/
def parseExpSuffix (mant : Nat) (exp10 : Int) : List Char → Option (Nat × Int)
  | [] => some (mant, exp10)
  | 'e' :: r =>
    let sr := readSign r
    let dr := lexDigits sr.2 0 0
    if dr.2.1 = 0 ∨ dr.2.2 ≠ [] then none
    else some (mant, exp10 + (if sr.1 then -(dr.1 : Int) else (dr.1 : Int)))
  | _ => none

/-- Parse the numeric body of a Python float literal (after sign and
underscore removal): `digits [. digits] [exp]` or `. digits [exp]`; the value
is returned exactly, as a decimal mantissa and exponent. -/
def parseNumeric (s : List Char) : Option (Nat × Int) :=
  let ir := lexDigits s 0 0
  match ir.2.2 with
  | '.' :: r2 =>
    let fr := lexDigits r2 0 0
    if ir.2.1 = 0 ∧ fr.2.1 = 0 then none
    else parseExpSuffix (ir.1 * 10 ^ fr.2.1 + fr.1) (-(fr.2.1 : Int)) fr.2.2
  | _ =>
    if ir.2.1 = 0 then none else parseExpSuffix ir.1 0 ir.2.2

/-- The exact rational value `±mant·10^exp10` of a parsed decimal. -/
def decToRat (neg : Bool) (mant : Nat) (exp10 : Int) : ℚ :=
  let m : Int := if neg then -(mant : Int) else (mant : Int)
  if 0 ≤ exp10 then mkRat (m * ((10 ^ exp10.toNat : Nat) : Int)) 1
  else mkRat m (10 ^ (-exp10).toNat)

/-- Smallest magnitude that IEEE-754 double conversion rounds up to `inf`. -/
def doubleOverflow : ℚ := mkRat ((2 ^ 1024 - 2 ^ 970 : Nat) : Int) 1

/-- Negation of `doubleOverflow`. -/
def negDoubleOverflow : ℚ := mkRat (-((2 ^ 1024 - 2 ^ 970 : Nat) : Int)) 1

/-- Largest magnitude that IEEE-754 double conversion rounds down to `0.0`. -/
def doubleUnderflow : ℚ := mkRat 1 (2 ^ 1075)

/-- Negation of `doubleUnderflow`. -/
def negDoubleUnderflow : ℚ := mkRat (-1) (2 ^ 1075)

/-- Clamp an exact rational to the double range the way CPython's
`float(str)` does: overflow to `±inf`, underflow to `0.0`; in-range values are
kept exact (mantissa rounding never changes sign or zeroness). -/
def roundToDouble (q : ℚ) : PyFloat :=
  if doubleOverflow ≤ q then .inf
  else if q ≤ negDoubleOverflow then .negInf
  else if negDoubleUnderflow ≤ q ∧ q ≤ doubleUnderflow then .finite (mkRat 0 1)
  else .finite q

/-- Model of CPython `float(str)`: strip whitespace, lowercase, optional sign,
then `inf`/`infinity`/`nan` or a numeric literal.  `none` models a raised
`ValueError`. -/
def pyFloatOfString (s : String) : Option PyFloat :=
  let cs := (stripChars s.data).map Char.toLower
  if cs = [] then none
  else
    let sr := readSign cs
    if sr.2 = "inf".data ∨ sr.2 = "infinity".data then
      some (if sr.1 then .negInf else .inf)
    else if sr.2 = "nan".data then some .nan
    else
      match remUnd 0 sr.2 with
      | none => none
      | some cs2 =>
        match parseNumeric cs2 with
        | none => none
        | some me => some (roundToDouble (decToRat sr.1 me.1 me.2))

/-- The `OrderParams` dataclass (normalized and validated order parameters). -/
structure OrderParams where
  symbol : String
  side : String
  order_type : String
  quantity : PyFloat
  price : Option PyFloat := none
  stop_price : Option PyFloat := none
deriving DecidableEq, Repr

/-- The `argparse.Namespace` produced by `parse_args`: `--symbol`, `--side`,
`--type`, `--qty` are `required=True` (always strings); `--price`,
`--stop-price`, `--api-key`, `--api-secret` default to `None`. -/
structure Args where
  api_key : Option String := none
  api_secret : Option String := none
  symbol : String
  side : String
  type : String
  qty : String
  price : Option String := none
  stop_price : Option String := none
deriving DecidableEq, Repr

namespace InputValidator

/-- Model of `InputValidator.validate_symbol`: the Python guard
`not symbol or not symbol.strip()` is equivalent to the stripped string being
empty. -/
def validate_symbol (symbol : String) : Except String String :=
  if pyStrip symbol = "" then .error "Symbol must not be empty."
  else
    let sym := pyUpper (pyStrip symbol)
    if sym.length < 6 then .error "Symbol looks invalid (too short). Example: BTCUSDT."
    else .ok sym

/-- Model of `InputValidator.validate_side`. -/
def validate_side (side : String) : Except String String :=
  if side = "" then .error "Side must be provided (BUY or SELL)."
  else
    let side_upper := pyUpper (pyStrip side)
    if side_upper = "BUY" ∨ side_upper = "SELL" then .ok side_upper
    else .error "Side must be BUY or SELL."

/-- Model of `InputValidator.validate_order_type`. -/
def validate_order_type (order_type : String) : Except String String :=
  if order_type = "" then .error "Order type must be provided."
  else
    let t0 := pyUpper (pyStrip order_type)
    let t := if t0 = "MKT" then "MARKET"
             else if t0 = "STOP-LIMIT" then "STOP_LIMIT"
             else if t0 = "STOPLIMIT" then "STOP_LIMIT"
             else t0
    if t = "MARKET" ∨ t = "LIMIT" ∨ t = "STOP_LIMIT" then .ok t
    else .error "Order type must be MARKET, LIMIT, or STOP_LIMIT."

/-- Model of `InputValidator.validate_positive_float`: `float(value)` then reject when
`f <= 0` (NaN compares `False` and is therefore not rejected). -/
def validate_positive_float (value : String) (field_name : String) : Except String PyFloat :=
  match pyFloatOfString value with
  | none => .error (field_name ++ " must be a number.")
  | some f => if f.le0 then .error (field_name ++ " must be greater than 0.") else .ok f

/-- The price block of `validate_order_params` (source lines 154-160): required
for LIMIT/STOP_LIMIT, left as `None` otherwise. -/
def priceStep (order_type : String) (price : Option String) : Except String (Option PyFloat) :=
  if order_type = "LIMIT" ∨ order_type = "STOP_LIMIT" then
    match price with
    | none => .error "Price is required for LIMIT and STOP_LIMIT orders."
    | some p => (validate_positive_float p "Price").map some
  else .ok none

/-- The stop-price block of `validate_order_params` (source lines 162-167):
required for STOP_LIMIT, left as `None` otherwise. -/
def stopPriceStep (order_type : String) (stop_price : Option String) :
    Except String (Option PyFloat) :=
  if order_type = "STOP_LIMIT" then
    match stop_price with
    | none => .error "stop-price is required for STOP_LIMIT orders."
    | some sp => (validate_positive_float sp "Stop price").map some
  else .ok none

/-- Model of `InputValidator.validate_order_params`: each step raises (`Except.error`)
and aborts the whole validation, mirroring Python exception propagation. -/
def validate_order_params (args : Args) : Except String OrderParams :=
  match validate_symbol args.symbol with
  | .error e => .error e
  | .ok symbol =>
    match validate_side args.side with
    | .error e => .error e
    | .ok side =>
      match validate_order_type args.type with
      | .error e => .error e
      | .ok order_type =>
        match validate_positive_float args.qty "Quantity" with
        | .error e => .error e
        | .ok quantity =>
          match priceStep order_type args.price with
          | .error e => .error e
          | .ok price =>
            match stopPriceStep order_type args.stop_price with
            | .error e => .error e
            | .ok stop_price =>
              .ok { symbol := symbol, side := side, order_type := order_type,
                    quantity := quantity, price := price, stop_price := stop_price }

end InputValidator

/-- The payload dict built by `BasicBot._build_order_payload`; `none` in an
`Option` field models the dict key being absent. -/
structure Payload where
  symbol : String
  side : String
  type : String
  quantity : PyFloat
  timeInForce : Option String := none
  price : Option PyFloat := none
  stopPrice : Option PyFloat := none
deriving DecidableEq, Repr

/-- An exception raised by the external `python-binance` client during
`futures_create_order`, carrying `str(e)`.  The first three constructors are
the library's exception classes; `otherException` is any other `Exception`. -/
inductive ClientExc where
  | binanceAPIException (msg : String)
  | binanceOrderException (msg : String)
  | binanceRequestException (msg : String)
  | otherException (msg : String)
deriving DecidableEq, Repr

/-- The `str(e)` text of a client exception. -/
def ClientExc.str : ClientExc → String
  | .binanceAPIException m => m
  | .binanceOrderException m => m
  | .binanceRequestException m => m
  | .otherException m => m

namespace BasicBot

/-- Model of `BasicBot._build_order_payload`: the `Except.error` branch models the
`TradingBotError` raised for an unsupported internal order type. -/
def _build_order_payload (params : OrderParams) : Except String Payload :=
  if params.order_type = "MARKET" then
    .ok { symbol := params.symbol, side := params.side, type := "MARKET",
          quantity := params.quantity }
  else if params.order_type = "LIMIT" then
    .ok { symbol := params.symbol, side := params.side, type := "LIMIT",
          quantity := params.quantity, timeInForce := some "GTC", price := params.price }
  else if params.order_type = "STOP_LIMIT" then
    .ok { symbol := params.symbol, side := params.side, type := "STOP",
          quantity := params.quantity, timeInForce := some "GTC", price := params.price,
          stopPrice := params.stop_price }
  else
    .error ("Unsupported internal order type: " ++ params.order_type)

/-- Model of `BasicBot.place_order`: builds the payload, calls the external client, and
wraps every client exception in a `TradingBotError` (`Except.error` with the
wrapped message).  The client is an explicit function argument; `α` is the
opaque response type. -/
def place_order {α : Type} (client : Payload → Except ClientExc α) (params : OrderParams) :
    Except String α :=
  match _build_order_payload params with
  | .error e => .error e
  | .ok payload =>
    match client payload with
    | .ok response => .ok response
    | .error (ClientExc.binanceAPIException m) => .error ("Binance API error: " ++ m)
    | .error (ClientExc.binanceOrderException m) => .error ("Binance API error: " ++ m)
    | .error (ClientExc.binanceRequestException m) => .error ("Binance API error: " ++ m)
    | .error (ClientExc.otherException m) =>
      .error ("Unexpected error while placing order: " ++ m)

end BasicBot

/-- Python's `a or b` on optional strings: `a` when it is truthy (present and
non-empty), otherwise `b`. -/
def pyOrStr (a b : Option String) : Option String :=
  match a with
  | some s => if s = "" then b else some s
  | none => b

/-- The `TradingBotError` message of `resolve_credentials`. -/
def credentialsErrorMessage : String :=
  "API credentials are required. Provide --api-key / --api-secret or set BINANCE_API_KEY / BINANCE_API_SECRET environment variables."

/-- Model of `resolve_credentials`: CLI value `or` environment variable for each of key
and secret, then fail when either resolved value is falsy (`None` or `""`).
The environment (`os.getenv` results) is passed explicitly. -/
def resolve_credentials (args : Args) (env_key env_secret : Option String) :
    Except String (String × String) :=
  let api_key := pyOrStr args.api_key env_key
  let api_secret := pyOrStr args.api_secret env_secret
  match api_key, api_secret with
  | some k, some s => if k = "" ∨ s = "" then .error credentialsErrorMessage else .ok (k, s)
  | _, _ => .error credentialsErrorMessage

/-! ### Helper lemmas -/

theorem char_toNat_ofNat {n : Nat} (h : n < 55296) : (Char.ofNat n).toNat = n := by
  unfold Char.ofNat
  rw [dif_pos (Or.inl h)]
  rfl

theorem toUpper_toLower (c : Char) : c.toLower.toUpper = c.toUpper := by
  simp only [Char.toLower, Char.toUpper]
  by_cases h : c.toNat ≥ 65 ∧ c.toNat ≤ 90
  · rw [if_pos h]
    have hv : (Char.ofNat (c.toNat + 32)).toNat = c.toNat + 32 := char_toNat_ofNat (by omega)
    rw [hv, if_pos (by omega : c.toNat + 32 ≥ 97 ∧ c.toNat + 32 ≤ 122),
      if_neg (by omega : ¬(c.toNat ≥ 97 ∧ c.toNat ≤ 122))]
    rw [show c.toNat + 32 - 32 = c.toNat by omega, Char.ofNat_toNat]
  · rw [if_neg h]

theorem pyIsSpace_toLower (c : Char) : pyIsSpace c.toLower = pyIsSpace c := by
  simp only [Char.toLower]
  by_cases h : c.toNat ≥ 65 ∧ c.toNat ≤ 90
  · rw [if_pos h]
    have hv : (Char.ofNat (c.toNat + 32)).toNat = c.toNat + 32 := char_toNat_ofNat (by omega)
    have h1 : pyIsSpace (Char.ofNat (c.toNat + 32)) = false := by
      simp only [pyIsSpace, hv]
      simp only [Bool.or_eq_false_iff, decide_eq_false_iff_not]
      omega
    have h2 : pyIsSpace c = false := by
      simp only [pyIsSpace]
      simp only [Bool.or_eq_false_iff, decide_eq_false_iff_not]
      omega
    rw [h1, h2]
  · rw [if_neg h]

theorem dropWhile_map_toLower (l : List Char) :
    (l.map Char.toLower).dropWhile pyIsSpace = (l.dropWhile pyIsSpace).map Char.toLower := by
  induction l with
  | nil => rfl
  | cons c l ih =>
    simp only [List.map_cons, List.dropWhile_cons, pyIsSpace_toLower]
    cases h : pyIsSpace c <;> simp [h, ih]

theorem stripChars_map_toLower (l : List Char) :
    stripChars (l.map Char.toLower) = (stripChars l).map Char.toLower := by
  unfold stripChars
  rw [dropWhile_map_toLower, ← List.map_reverse, dropWhile_map_toLower, ← List.map_reverse]

theorem map_toUpper_toLower (l : List Char) :
    (l.map Char.toLower).map Char.toUpper = l.map Char.toUpper := by
  induction l with
  | nil => rfl
  | cons c l ih => simp [toUpper_toLower, ih]

theorem pyUpper_pyStrip_pyLower (s : String) :
    pyUpper (pyStrip (pyLower s)) = pyUpper (pyStrip s) := by
  simp only [pyUpper, pyStrip, pyLower]
  rw [stripChars_map_toLower, map_toUpper_toLower]

theorem pyLower_eq_empty_iff (s : String) : pyLower s = "" ↔ s = "" := by
  constructor
  · intro h
    have h2 : List.map Char.toLower s.data = [] := congrArg String.data h
    simp only [List.map_eq_nil_iff] at h2
    exact String.ext h2
  · intro h
    rw [h]
    rfl

theorem pyUpper_length (s : String) : (pyUpper s).length = s.length :=
  List.length_map s.data Char.toUpper

namespace InputValidator

theorem validate_order_type_ok_mem {s t : String}
    (h : validate_order_type s = .ok t) :
    t = "MARKET" ∨ t = "LIMIT" ∨ t = "STOP_LIMIT" := by
  simp only [validate_order_type] at h
  split_ifs at h <;> simp_all

theorem validate_positive_float_ok {v fn : String} {x : PyFloat}
    (h : validate_positive_float v fn = .ok x) :
    pyFloatOfString v = some x ∧ x.le0 = false := by
  unfold validate_positive_float at h
  cases hp : pyFloatOfString v with
  | none => rw [hp] at h; cases h
  | some y =>
    rw [hp] at h
    by_cases hy : y.le0
    · simp [hy] at h
    · simp [hy] at h
      subst h
      exact ⟨rfl, by simpa using hy⟩

end InputValidator
namespace InputValidator

theorem vop_error_symbol {a : Args} {e : String}
    (h : validate_symbol a.symbol = .error e) :
    validate_order_params a = .error e := by
  simp only [validate_order_params, h]

theorem vop_error_side {a : Args} {sym e : String}
    (h1 : validate_symbol a.symbol = .ok sym)
    (h2 : validate_side a.side = .error e) :
    validate_order_params a = .error e := by
  simp only [validate_order_params, h1, h2]

theorem vop_error_type {a : Args} {sym sd e : String}
    (h1 : validate_symbol a.symbol = .ok sym)
    (h2 : validate_side a.side = .ok sd)
    (h3 : validate_order_type a.type = .error e) :
    validate_order_params a = .error e := by
  simp only [validate_order_params, h1, h2, h3]

theorem vop_error_qty {a : Args} {sym sd t e : String}
    (h1 : validate_symbol a.symbol = .ok sym)
    (h2 : validate_side a.side = .ok sd)
    (h3 : validate_order_type a.type = .ok t)
    (h4 : validate_positive_float a.qty "Quantity" = .error e) :
    validate_order_params a = .error e := by
  simp only [validate_order_params, h1, h2, h3, h4]

theorem vop_error_price {a : Args} {sym sd t e : String} {q : PyFloat}
    (h1 : validate_symbol a.symbol = .ok sym)
    (h2 : validate_side a.side = .ok sd)
    (h3 : validate_order_type a.type = .ok t)
    (h4 : validate_positive_float a.qty "Quantity" = .ok q)
    (h5 : priceStep t a.price = .error e) :
    validate_order_params a = .error e := by
  simp only [validate_order_params, h1, h2, h3, h4, h5]

theorem vop_error_stop {a : Args} {sym sd t e : String} {q : PyFloat} {pr : Option PyFloat}
    (h1 : validate_symbol a.symbol = .ok sym)
    (h2 : validate_side a.side = .ok sd)
    (h3 : validate_order_type a.type = .ok t)
    (h4 : validate_positive_float a.qty "Quantity" = .ok q)
    (h5 : priceStep t a.price = .ok pr)
    (h6 : stopPriceStep t a.stop_price = .error e) :
    validate_order_params a = .error e := by
  simp only [validate_order_params, h1, h2, h3, h4, h5, h6]

theorem vop_ok {a : Args} {sym sd t : String} {q : PyFloat} {pr sp : Option PyFloat}
    (h1 : validate_symbol a.symbol = .ok sym)
    (h2 : validate_side a.side = .ok sd)
    (h3 : validate_order_type a.type = .ok t)
    (h4 : validate_positive_float a.qty "Quantity" = .ok q)
    (h5 : priceStep t a.price = .ok pr)
    (h6 : stopPriceStep t a.stop_price = .ok sp) :
    validate_order_params a =
      .ok { symbol := sym, side := sd, order_type := t, quantity := q,
            price := pr, stop_price := sp } := by
  simp only [validate_order_params, h1, h2, h3, h4, h5, h6]

theorem vop_ok_inversion {a : Args} {p : OrderParams}
    (h : validate_order_params a = .ok p) :
    validate_symbol a.symbol = .ok p.symbol ∧
    validate_side a.side = .ok p.side ∧
    validate_order_type a.type = .ok p.order_type ∧
    validate_positive_float a.qty "Quantity" = .ok p.quantity ∧
    priceStep p.order_type a.price = .ok p.price ∧
    stopPriceStep p.order_type a.stop_price = .ok p.stop_price := by
  unfold validate_order_params at h
  cases h1 : validate_symbol a.symbol with
  | error e => simp only [h1] at h; exact Except.noConfusion h
  | ok sym =>
  simp only [h1] at h
  cases h2 : validate_side a.side with
  | error e => simp only [h2] at h; exact Except.noConfusion h
  | ok sd =>
  simp only [h2] at h
  cases h3 : validate_order_type a.type with
  | error e => simp only [h3] at h; exact Except.noConfusion h
  | ok t =>
  simp only [h3] at h
  cases h4 : validate_positive_float a.qty "Quantity" with
  | error e => simp only [h4] at h; exact Except.noConfusion h
  | ok q =>
  simp only [h4] at h
  cases h5 : priceStep t a.price with
  | error e => simp only [h5] at h; exact Except.noConfusion h
  | ok pr =>
  simp only [h5] at h
  cases h6 : stopPriceStep t a.stop_price with
  | error e => simp only [h6] at h; exact Except.noConfusion h
  | ok sp =>
  simp only [h6] at h
  cases h
  exact ⟨rfl, rfl, rfl, rfl, h5, h6⟩

end InputValidator
namespace InputValidator

theorem priceStep_required_none {t : String} (h : t = "LIMIT" ∨ t = "STOP_LIMIT") :
    priceStep t none = .error "Price is required for LIMIT and STOP_LIMIT orders." := by
  unfold priceStep
  rw [if_pos h]

theorem priceStep_not_required {t : String} (h : ¬(t = "LIMIT" ∨ t = "STOP_LIMIT"))
    (p : Option String) : priceStep t p = .ok none := by
  unfold priceStep
  rw [if_neg h]

theorem priceStep_ok_required {t : String} {p : Option String} {x : Option PyFloat}
    (ht : t = "LIMIT" ∨ t = "STOP_LIMIT") (h : priceStep t p = .ok x) :
    ∃ s f, p = some s ∧ validate_positive_float s "Price" = .ok f ∧ x = some f := by
  unfold priceStep at h
  rw [if_pos ht] at h
  cases p with
  | none => exact Except.noConfusion h
  | some s =>
    simp only [Except.map] at h
    cases hv : validate_positive_float s "Price" with
    | error e => simp only [hv] at h; exact Except.noConfusion h
    | ok f =>
      simp only [hv] at h
      cases h
      exact ⟨s, f, rfl, hv, rfl⟩

theorem priceStep_error_some {t s e : String}
    (h : priceStep t (some s) = .error e) :
    e = "Price must be a number." ∨ e = "Price must be greater than 0." := by
  unfold priceStep at h
  split_ifs at h
  · simp only [Except.map] at h
    unfold validate_positive_float at h
    cases hp : pyFloatOfString s with
    | none =>
      simp only [hp] at h
      cases h
      left
      rfl
    | some f =>
      simp only [hp] at h
      by_cases hf : f.le0 = true
      · simp only [hf, if_true] at h
        cases h
        right
        rfl
      · simp only [hf, if_false] at h
        exact Except.noConfusion h

theorem stopPriceStep_required_none :
    stopPriceStep "STOP_LIMIT" none = .error "stop-price is required for STOP_LIMIT orders." := rfl

theorem stopPriceStep_not_required {t : String} (h : ¬t = "STOP_LIMIT")
    (sp : Option String) : stopPriceStep t sp = .ok none := by
  unfold stopPriceStep
  rw [if_neg h]

theorem stopPriceStep_ok_required {sp : Option String} {x : Option PyFloat}
    (h : stopPriceStep "STOP_LIMIT" sp = .ok x) :
    ∃ s f, sp = some s ∧ validate_positive_float s "Stop price" = .ok f ∧ x = some f := by
  unfold stopPriceStep at h
  rw [if_pos rfl] at h
  cases sp with
  | none => exact Except.noConfusion h
  | some s =>
    simp only [Except.map] at h
    cases hv : validate_positive_float s "Stop price" with
    | error e => simp only [hv] at h; exact Except.noConfusion h
    | ok f =>
      simp only [hv] at h
      cases h
      exact ⟨s, f, rfl, hv, rfl⟩

theorem stopPriceStep_error_some {t s e : String}
    (h : stopPriceStep t (some s) = .error e) :
    e = "Stop price must be a number." ∨ e = "Stop price must be greater than 0." := by
  unfold stopPriceStep at h
  split_ifs at h
  · simp only [Except.map] at h
    unfold validate_positive_float at h
    cases hp : pyFloatOfString s with
    | none =>
      simp only [hp] at h
      cases h
      left
      rfl
    | some f =>
      simp only [hp] at h
      by_cases hf : f.le0 = true
      · simp only [hf, if_true] at h
        cases h
        right
        rfl
      · simp only [hf, if_false] at h
        exact Except.noConfusion h

end InputValidator


/-! ### Claims -/

open InputValidator

/-- Claim C6 -/
theorem claim_C6_uniform_submission_error (α : Type) (client : Payload → Except ClientExc α)
    (p : OrderParams) (pay : Payload) (e : ClientExc)
    (hb : BasicBot._build_order_payload p = .ok pay)
    (hc : client pay = .error e) :
    ∃ m, BasicBot.place_order client p = .error m ∧ ∃ pre, m = pre ++ e.str := by
  cases e with
  | binanceAPIException m =>
    exact ⟨"Binance API error: " ++ m, by simp only [BasicBot.place_order, hb, hc],
      "Binance API error: ", rfl⟩
  | binanceOrderException m =>
    exact ⟨"Binance API error: " ++ m, by simp only [BasicBot.place_order, hb, hc],
      "Binance API error: ", rfl⟩
  | binanceRequestException m =>
    exact ⟨"Binance API error: " ++ m, by simp only [BasicBot.place_order, hb, hc],
      "Binance API error: ", rfl⟩
  | otherException m =>
    exact ⟨"Unexpected error while placing order: " ++ m,
      by simp only [BasicBot.place_order, hb, hc],
      "Unexpected error while placing order: ", rfl⟩

theorem claim_C6_witness :
    ∃ m, BasicBot.place_order
        (fun _ => Except.error (ClientExc.otherException "boom") : Payload → Except ClientExc Unit)
        (OrderParams.mk "BTCUSDT" "BUY" "MARKET" (.finite (mkRat 1 1)) none none) =
      .error m ∧ ∃ pre, m = pre ++ (ClientExc.otherException "boom").str :=
  claim_C6_uniform_submission_error Unit _
    (OrderParams.mk "BTCUSDT" "BUY" "MARKET" (.finite (mkRat 1 1)) none none)
    (Payload.mk "BTCUSDT" "BUY" "MARKET" (.finite (mkRat 1 1)) none none none)
    (ClientExc.otherException "boom") rfl rfl

/-- Claim C10 -/
theorem claim_C10_credential_resolution (args : Args) (env_key env_secret : Option String) :
    (∀ v, v ≠ "" → pyOrStr (some v) env_key = some v) ∧
    (pyOrStr (some "") env_key = env_key ∧ pyOrStr none env_key = env_key) ∧
    (resolve_credentials args env_key env_secret = .error credentialsErrorMessage ↔
      (pyOrStr args.api_key env_key = none ∨ pyOrStr args.api_key env_key = some "" ∨
       pyOrStr args.api_secret env_secret = none ∨
       pyOrStr args.api_secret env_secret = some "")) ∧
    (∀ k s, resolve_credentials args env_key env_secret = .ok (k, s) →
      pyOrStr args.api_key env_key = some k ∧ pyOrStr args.api_secret env_secret = some s ∧
      k ≠ "" ∧ s ≠ "") := by
  refine ⟨fun v hv => by simp [pyOrStr, hv], ⟨by simp [pyOrStr], rfl⟩, ?_, ?_⟩
  · unfold resolve_credentials
    cases hk : pyOrStr args.api_key env_key with
    | none => simp [hk]
    | some k =>
      cases hs : pyOrStr args.api_secret env_secret with
      | none => simp [hk, hs]
      | some s =>
        change (if k = "" ∨ s = "" then Except.error credentialsErrorMessage
          else Except.ok (k, s)) = Except.error credentialsErrorMessage ↔ _
        by_cases hks : k = "" ∨ s = ""
        · rw [if_pos hks]
          simp only [true_iff]
          rcases hks with h | h
          · exact Or.inr (Or.inl (by rw [h]))
          · exact Or.inr (Or.inr (Or.inr (by rw [h])))
        · rw [if_neg hks]
          push_neg at hks
          constructor
          · intro hcontra
            exact Except.noConfusion hcontra
          · rintro (h | h | h | h)
            · exact Option.noConfusion h
            · exact (hks.1 (Option.some.inj h)).elim
            · exact Option.noConfusion h
            · exact (hks.2 (Option.some.inj h)).elim
  · intro k s h
    unfold resolve_credentials at h
    cases hk : pyOrStr args.api_key env_key with
    | none => simp only [hk] at h; exact Except.noConfusion h
    | some k2 =>
      cases hs : pyOrStr args.api_secret env_secret with
      | none => simp only [hk, hs] at h; exact Except.noConfusion h
      | some s2 =>
        simp only [hk, hs] at h
        by_cases hks : k2 = "" ∨ s2 = ""
        · rw [if_pos hks] at h
          exact Except.noConfusion h
        · rw [if_neg hks] at h
          push_neg at hks
          have h2 : (k2, s2) = (k, s) := Except.ok.inj h
          cases h2
          exact ⟨rfl, rfl, hks.1, hks.2⟩

theorem claim_C10_witness :
    pyOrStr (Args.mk (some "CLI-KEY") (some "") "BTCUSDT" "BUY" "MARKET" "1" none none).api_key
      (some "ENV-KEY") = some "CLI-KEY" ∧
    pyOrStr (Args.mk (some "CLI-KEY") (some "") "BTCUSDT" "BUY" "MARKET" "1" none none).api_secret
      (some "ENV-SECRET") = some "ENV-SECRET" ∧
    "CLI-KEY" ≠ "" ∧ "ENV-SECRET" ≠ "" := by
  have h := (claim_C10_credential_resolution
    (Args.mk (some "CLI-KEY") (some "") "BTCUSDT" "BUY" "MARKET" "1" none none)
    (some "ENV-KEY") (some "ENV-SECRET")).2.2.2 "CLI-KEY" "ENV-SECRET" (by decide)
  exact h

/-- Claim C1: for every valid OrderIntent the built payload follows the
per-order-type mapping table: MARKET maps to exchange type MARKET with no
timeInForce/price/stopPrice keys; LIMIT maps to LIMIT with timeInForce=GTC and
the intent price; STOP_LIMIT maps to STOP with timeInForce=GTC, the intent
price and stop price; symbol, side and quantity pass through unchanged.  The
mapping is a function of the intent, hence deterministic. -/
theorem claim_C1_payload_mapping (p : OrderParams) :
    (p.order_type = "MARKET" →
      BasicBot._build_order_payload p =
        .ok { symbol := p.symbol, side := p.side, type := "MARKET", quantity := p.quantity,
              timeInForce := none, price := none, stopPrice := none }) ∧
    (∀ pr, p.order_type = "LIMIT" → p.price = some pr →
      BasicBot._build_order_payload p =
        .ok { symbol := p.symbol, side := p.side, type := "LIMIT", quantity := p.quantity,
              timeInForce := some "GTC", price := some pr, stopPrice := none }) ∧
    (∀ pr sp, p.order_type = "STOP_LIMIT" → p.price = some pr → p.stop_price = some sp →
      BasicBot._build_order_payload p =
        .ok { symbol := p.symbol, side := p.side, type := "STOP", quantity := p.quantity,
              timeInForce := some "GTC", price := some pr, stopPrice := some sp }) := by
  refine ⟨fun h => ?_, fun pr h hp => ?_, fun pr sp h hp hsp => ?_⟩
  · simp [BasicBot._build_order_payload, h]
  · simp [BasicBot._build_order_payload, h, hp]
  · simp [BasicBot._build_order_payload, h, hp, hsp]

/-- Witness for C1: the spec scenario qty=0.01, price=50000, stop-price=49000. -/
theorem claim_C1_witness :
    BasicBot._build_order_payload
      { symbol := "BTCUSDT", side := "SELL", order_type := "STOP_LIMIT",
        quantity := .finite (mkRat 1 100), price := some (.finite (mkRat 50000 1)),
        stop_price := some (.finite (mkRat 49000 1)) } =
      .ok { symbol := "BTCUSDT", side := "SELL", type := "STOP",
            quantity := .finite (mkRat 1 100), timeInForce := some "GTC",
            price := some (.finite (mkRat 50000 1)),
            stopPrice := some (.finite (mkRat 49000 1)) } :=
  (claim_C1_payload_mapping _).2.2 (.finite (mkRat 50000 1)) (.finite (mkRat 49000 1))
    rfl rfl rfl

/-- Claim C2 (amended): a string that does not parse fails with the
field-specific "must be a number" message; a string parsing to a value that
compares `<= 0` fails with the field-specific "must be greater than 0"
message; a string parsing to a value that does not compare `<= 0` is accepted
and returned.  Every strictly positive value is accepted (last conjunct), but
acceptance also extends to NaN, which is not positive — see the
counterexample. -/
theorem claim_C2_positive_float_validation (value field_name : String) :
    (pyFloatOfString value = none →
      InputValidator.validate_positive_float value field_name =
        .error (field_name ++ " must be a number.")) ∧
    (∀ f, pyFloatOfString value = some f → f.le0 = true →
      InputValidator.validate_positive_float value field_name =
        .error (field_name ++ " must be greater than 0.")) ∧
    (∀ f, pyFloatOfString value = some f → f.le0 = false →
      InputValidator.validate_positive_float value field_name = .ok f) ∧
    (∀ f : PyFloat, f.gt0 = true → f.le0 = false) := by
  refine ⟨fun h => ?_, fun f hf hle => ?_, fun f hf hle => ?_, fun f hf => ?_⟩
  · unfold InputValidator.validate_positive_float
    rw [h]
  · unfold InputValidator.validate_positive_float
    rw [hf]
    simp [hle]
  · unfold InputValidator.validate_positive_float
    rw [hf]
    simp [hle]
  · cases f with
    | finite q =>
      simp only [PyFloat.gt0, decide_eq_true_eq] at hf
      simp only [PyFloat.le0, decide_eq_false_iff_not]
      linarith
    | inf => rfl
    | negInf => exact absurd hf (by simp [PyFloat.gt0])
    | nan => rfl

set_option exponentiation.threshold 1200 in
set_option maxRecDepth 20000 in
/-- Witness for C2: an unparseable quantity fails, a positive one is parsed. -/
theorem claim_C2_witness :
    InputValidator.validate_positive_float "abc" "Quantity" =
      .error ("Quantity" ++ " must be a number.") ∧
    InputValidator.validate_positive_float "0.001" "Quantity" = .ok (.finite (mkRat 1 1000)) :=
  ⟨(claim_C2_positive_float_validation "abc" "Quantity").1 (by decide),
   (claim_C2_positive_float_validation "0.001" "Quantity").2.2.1 (.finite (mkRat 1 1000))
     (by decide) (by decide)⟩

set_option exponentiation.threshold 1200 in
set_option maxRecDepth 20000 in
/-- Counterexample to C2 as stated: the string "nan" parses as a float whose
value is not strictly greater than zero (`nan > 0` is false in Python), yet
validation succeeds and returns NaN instead of failing. -/
theorem claim_C2_counterexample :
    pyFloatOfString "nan" = some PyFloat.nan ∧
    PyFloat.nan.gt0 = false ∧
    InputValidator.validate_positive_float "nan" "Quantity" = .ok PyFloat.nan := by
  decide

/-- Claim C3: LIMIT and STOP_LIMIT inputs without a price fail, STOP_LIMIT
inputs without a stop price fail, MARKET never requires either, and the
missing-field errors are distinct from the invalid-value errors. -/
theorem claim_C3_required_fields (a : Args) :
    ((validate_order_type a.type = .ok "LIMIT" ∨
      validate_order_type a.type = .ok "STOP_LIMIT") → a.price = none →
      ∃ e, validate_order_params a = .error e) ∧
    (validate_order_type a.type = .ok "STOP_LIMIT" → a.stop_price = none →
      ∃ e, validate_order_params a = .error e) ∧
    (∀ sym sd q, validate_order_type a.type = .ok "MARKET" →
      validate_symbol a.symbol = .ok sym →
      validate_side a.side = .ok sd →
      validate_positive_float a.qty "Quantity" = .ok q →
      validate_order_params a =
        .ok { symbol := sym, side := sd, order_type := "MARKET", quantity := q,
              price := none, stop_price := none }) ∧
    (∀ t, (t = "LIMIT" ∨ t = "STOP_LIMIT") →
      priceStep t none = .error "Price is required for LIMIT and STOP_LIMIT orders.") ∧
    (∀ t s e, priceStep t (some s) = .error e →
      e = "Price must be a number." ∨ e = "Price must be greater than 0.") ∧
    stopPriceStep "STOP_LIMIT" none = .error "stop-price is required for STOP_LIMIT orders." ∧
    (∀ t s e, stopPriceStep t (some s) = .error e →
      e = "Stop price must be a number." ∨ e = "Stop price must be greater than 0.") ∧
    ("Price is required for LIMIT and STOP_LIMIT orders." ≠ "Price must be a number." ∧
     "Price is required for LIMIT and STOP_LIMIT orders." ≠ "Price must be greater than 0." ∧
     "stop-price is required for STOP_LIMIT orders." ≠ "Stop price must be a number." ∧
     "stop-price is required for STOP_LIMIT orders." ≠ "Stop price must be greater than 0.") := by
  refine ⟨?_, ?_, ?_, fun t ht => priceStep_required_none ht,
    fun t s e h => priceStep_error_some h, stopPriceStep_required_none,
    fun t s e h => stopPriceStep_error_some h, by decide, by decide, by decide, by decide⟩
  · intro ht hp
    cases h1 : validate_symbol a.symbol with
    | error e => exact ⟨e, vop_error_symbol h1⟩
    | ok sym =>
    cases h2 : validate_side a.side with
    | error e => exact ⟨e, vop_error_side h1 h2⟩
    | ok sd =>
    cases h4 : validate_positive_float a.qty "Quantity" with
    | error e => rcases ht with h3 | h3 <;> exact ⟨e, vop_error_qty h1 h2 h3 h4⟩
    | ok q =>
      rcases ht with h3 | h3
      · exact ⟨_, vop_error_price h1 h2 h3 h4
          (by rw [hp]; exact priceStep_required_none (Or.inl rfl))⟩
      · exact ⟨_, vop_error_price h1 h2 h3 h4
          (by rw [hp]; exact priceStep_required_none (Or.inr rfl))⟩
  · intro ht hsp
    cases h1 : validate_symbol a.symbol with
    | error e => exact ⟨e, vop_error_symbol h1⟩
    | ok sym =>
    cases h2 : validate_side a.side with
    | error e => exact ⟨e, vop_error_side h1 h2⟩
    | ok sd =>
    cases h4 : validate_positive_float a.qty "Quantity" with
    | error e => exact ⟨e, vop_error_qty h1 h2 ht h4⟩
    | ok q =>
    cases h5 : priceStep "STOP_LIMIT" a.price with
    | error e => exact ⟨e, vop_error_price h1 h2 ht h4 h5⟩
    | ok pr =>
      exact ⟨_, vop_error_stop h1 h2 ht h4 h5
        (by rw [hsp]; exact stopPriceStep_required_none)⟩
  · intro sym sd q h3 h1 h2 h4
    exact vop_ok h1 h2 h3 h4 (priceStep_not_required (by decide) a.price)
      (stopPriceStep_not_required (by decide) a.stop_price)

/-- Witness for C3: the spec scenario type=LIMIT with price missing fails. -/
theorem claim_C3_witness :
    ∃ e, validate_order_params
      { symbol := "BTCUSDT", side := "BUY", type := "LIMIT", qty := "1" } = .error e :=
  (claim_C3_required_fields _).1 (Or.inl (by decide)) rfl

/-- Claim C4: symbol validation trims, rejects an empty or short trimmed
symbol, and otherwise returns the trimmed symbol uppercased. -/
theorem claim_C4_symbol_validation (symbol : String) :
    (pyStrip symbol = "" →
      InputValidator.validate_symbol symbol = .error "Symbol must not be empty.") ∧
    (pyStrip symbol ≠ "" → (pyStrip symbol).length < 6 →
      InputValidator.validate_symbol symbol =
        .error "Symbol looks invalid (too short). Example: BTCUSDT.") ∧
    (pyStrip symbol ≠ "" → 6 ≤ (pyStrip symbol).length →
      InputValidator.validate_symbol symbol = .ok (pyUpper (pyStrip symbol))) := by
  refine ⟨fun h => ?_, fun h h6 => ?_, fun h h6 => ?_⟩
  · simp only [InputValidator.validate_symbol]
    rw [if_pos h]
  · simp only [InputValidator.validate_symbol]
    rw [if_neg h, if_pos (by rw [pyUpper_length]; exact h6)]
  · simp only [InputValidator.validate_symbol]
    rw [if_neg h, if_neg (by rw [pyUpper_length]; omega)]

/-- Witness for C4: a short symbol fails, a 7-character one is uppercased. -/
theorem claim_C4_witness :
    InputValidator.validate_symbol " btc " =
      .error "Symbol looks invalid (too short). Example: BTCUSDT." ∧
    InputValidator.validate_symbol " btcusdt " = .ok "BTCUSDT" := by
  refine ⟨(claim_C4_symbol_validation " btc ").2.1 (by decide) (by decide), ?_⟩
  have h := (claim_C4_symbol_validation " btcusdt ").2.2 (by decide) (by decide)
  rw [h]
  decide

/-- Claim C5: order-type resolution is case-insensitive (the result depends
only on the lowercase image of the input) and idempotent (validating a
validated result is a no-op); the alias table maps MKT to MARKET and
STOP-LIMIT/STOPLIMIT to STOP_LIMIT, and canonical types map to themselves. -/
theorem claim_C5_case_insensitive_idempotent :
    (∀ s : String, InputValidator.validate_order_type (pyLower s) =
      InputValidator.validate_order_type s) ∧
    (∀ s t : String, pyLower s = pyLower t →
      InputValidator.validate_order_type s = InputValidator.validate_order_type t) ∧
    InputValidator.validate_order_type "MKT" = .ok "MARKET" ∧
    InputValidator.validate_order_type "STOP-LIMIT" = .ok "STOP_LIMIT" ∧
    InputValidator.validate_order_type "STOPLIMIT" = .ok "STOP_LIMIT" ∧
    InputValidator.validate_order_type "MARKET" = .ok "MARKET" ∧
    InputValidator.validate_order_type "LIMIT" = .ok "LIMIT" ∧
    InputValidator.validate_order_type "STOP_LIMIT" = .ok "STOP_LIMIT" ∧
    (∀ s t : String, InputValidator.validate_order_type s = .ok t →
      InputValidator.validate_order_type t = .ok t) := by
  have hA : ∀ s : String, InputValidator.validate_order_type (pyLower s) =
      InputValidator.validate_order_type s := by
    intro s
    by_cases hs : s = ""
    · subst hs
      rfl
    · have h1 : ¬pyLower s = "" := fun hh => hs ((pyLower_eq_empty_iff s).mp hh)
      simp only [InputValidator.validate_order_type]
      rw [if_neg h1, if_neg hs, pyUpper_pyStrip_pyLower]
  have hD : ∀ s t : String, InputValidator.validate_order_type s = .ok t →
      InputValidator.validate_order_type t = .ok t := by
    intro s t h
    rcases InputValidator.validate_order_type_ok_mem h with ht | ht | ht <;> subst ht <;> decide
  exact ⟨hA, fun s t h => by rw [← hA s, ← hA t, h], by decide, by decide, by decide, by decide,
    by decide, by decide, hD⟩

/-- Witness for C5: two casings of MKT agree, and MARKET revalidates to
itself. -/
theorem claim_C5_witness :
    InputValidator.validate_order_type "mKt" = InputValidator.validate_order_type "Mkt" ∧
    InputValidator.validate_order_type "MARKET" = .ok "MARKET" :=
  ⟨claim_C5_case_insensitive_idempotent.2.1 "mKt" "Mkt" (by decide),
   claim_C5_case_insensitive_idempotent.2.2.2.2.2.2.2.2 "mkt" "MARKET" (by decide)⟩

/-- Claim C7 (amended): in every validated OrderParams, price is set iff the
order type is LIMIT or STOP_LIMIT and stop price is set iff it is STOP_LIMIT;
a set value never compares `<= 0` (it is positive, `inf`, or NaN — the claim
as stated says "positive float", which NaN violates, see the
counterexample). -/
theorem claim_C7_price_invariants (a : Args) (p : OrderParams)
    (h : validate_order_params a = .ok p) :
    ((p.order_type = "LIMIT" ∨ p.order_type = "STOP_LIMIT") ↔ (∃ f, p.price = some f)) ∧
    (p.order_type = "STOP_LIMIT" ↔ (∃ f, p.stop_price = some f)) ∧
    (∀ f, p.price = some f → f.le0 = false) ∧
    (∀ f, p.stop_price = some f → f.le0 = false) := by
  obtain ⟨-, -, h3, -, h5, h6⟩ := vop_ok_inversion h
  rcases validate_order_type_ok_mem h3 with ht | ht | ht
  · have hpn : p.price = none :=
      (Except.ok.inj ((priceStep_not_required (by rw [ht]; decide) a.price).symm.trans h5)).symm
    have hsn : p.stop_price = none :=
      (Except.ok.inj ((stopPriceStep_not_required (by rw [ht]; decide) a.stop_price).symm.trans
        h6)).symm
    refine ⟨⟨fun hc => ?_, fun ⟨f, hf⟩ => ?_⟩, ⟨fun hc => ?_, fun ⟨f, hf⟩ => ?_⟩, ?_, ?_⟩
    · rcases hc with hc | hc <;> rw [ht] at hc <;> exact absurd hc (by decide)
    · rw [hpn] at hf; exact Option.noConfusion hf
    · rw [ht] at hc; exact absurd hc (by decide)
    · rw [hsn] at hf; exact Option.noConfusion hf
    · intro f hf; rw [hpn] at hf; exact Option.noConfusion hf
    · intro f hf; rw [hsn] at hf; exact Option.noConfusion hf
  · rw [ht] at h5 h6
    obtain ⟨s, f, -, hv, hx⟩ := priceStep_ok_required (Or.inl rfl) h5
    have hsn : p.stop_price = none :=
      (Except.ok.inj ((stopPriceStep_not_required (by decide) a.stop_price).symm.trans h6)).symm
    refine ⟨⟨fun _ => ⟨f, hx⟩, fun _ => Or.inl ht⟩, ⟨fun hc => ?_, fun ⟨g, hg⟩ => ?_⟩, ?_, ?_⟩
    · rw [ht] at hc; exact absurd hc (by decide)
    · rw [hsn] at hg; exact Option.noConfusion hg
    · intro g hg
      rw [hx] at hg
      cases hg
      exact (validate_positive_float_ok hv).2
    · intro g hg; rw [hsn] at hg; exact Option.noConfusion hg
  · rw [ht] at h5 h6
    obtain ⟨s, f, -, hv, hx⟩ := priceStep_ok_required (Or.inr rfl) h5
    obtain ⟨s2, f2, -, hv2, hx2⟩ := stopPriceStep_ok_required h6
    refine ⟨⟨fun _ => ⟨f, hx⟩, fun _ => Or.inr ht⟩, ⟨fun _ => ⟨f2, hx2⟩, fun _ => ht⟩, ?_, ?_⟩
    · intro g hg
      rw [hx] at hg
      cases hg
      exact (validate_positive_float_ok hv).2
    · intro g hg
      rw [hx2] at hg
      cases hg
      exact (validate_positive_float_ok hv2).2

set_option exponentiation.threshold 1200 in
set_option maxRecDepth 20000 in
/-- Witness for C7: a validated LIMIT order has its price set. -/
theorem claim_C7_witness :
    ∃ f, (OrderParams.mk "BTCUSDT" "BUY" "LIMIT" (.finite (mkRat 1 1))
      (some (.finite (mkRat 50000 1))) none).price = some f :=
  (claim_C7_price_invariants
    { symbol := "BTCUSDT", side := "BUY", type := "LIMIT", qty := "1",
      price := some "50000" }
    (OrderParams.mk "BTCUSDT" "BUY" "LIMIT" (.finite (mkRat 1 1))
      (some (.finite (mkRat 50000 1))) none)
    (by decide)).1.mp (Or.inl rfl)

set_option exponentiation.threshold 1200 in
set_option maxRecDepth 20000 in
/-- Counterexample to C7 as stated: validation accepts price "nan" for a LIMIT
order, so the price field is set to NaN, which is not a positive float. -/
theorem claim_C7_counterexample :
    validate_order_params
      { symbol := "BTCUSDT", side := "BUY", type := "LIMIT", qty := "1",
        price := some "nan" } =
      .ok { symbol := "BTCUSDT", side := "BUY", order_type := "LIMIT",
            quantity := .finite (mkRat 1 1), price := some .nan, stop_price := none } ∧
    PyFloat.nan.gt0 = false := by
  decide

/-- Claim C8: validation applies symbol, side, order type, quantity, price,
stop price in that order; the first failing step's error is the result, and on
success the full record is returned (an `Except` carries no partial result on
failure). -/
theorem claim_C8_first_failure_wins (a : Args) :
    (∀ e, validate_symbol a.symbol = .error e → validate_order_params a = .error e) ∧
    (∀ sym e, validate_symbol a.symbol = .ok sym → validate_side a.side = .error e →
      validate_order_params a = .error e) ∧
    (∀ sym sd e, validate_symbol a.symbol = .ok sym → validate_side a.side = .ok sd →
      validate_order_type a.type = .error e → validate_order_params a = .error e) ∧
    (∀ sym sd t e, validate_symbol a.symbol = .ok sym → validate_side a.side = .ok sd →
      validate_order_type a.type = .ok t →
      validate_positive_float a.qty "Quantity" = .error e →
      validate_order_params a = .error e) ∧
    (∀ sym sd t q e, validate_symbol a.symbol = .ok sym → validate_side a.side = .ok sd →
      validate_order_type a.type = .ok t →
      validate_positive_float a.qty "Quantity" = .ok q →
      priceStep t a.price = .error e → validate_order_params a = .error e) ∧
    (∀ sym sd t q pr e, validate_symbol a.symbol = .ok sym → validate_side a.side = .ok sd →
      validate_order_type a.type = .ok t →
      validate_positive_float a.qty "Quantity" = .ok q →
      priceStep t a.price = .ok pr → stopPriceStep t a.stop_price = .error e →
      validate_order_params a = .error e) ∧
    (∀ sym sd t q pr sp, validate_symbol a.symbol = .ok sym → validate_side a.side = .ok sd →
      validate_order_type a.type = .ok t →
      validate_positive_float a.qty "Quantity" = .ok q →
      priceStep t a.price = .ok pr → stopPriceStep t a.stop_price = .ok sp →
      validate_order_params a =
        .ok { symbol := sym, side := sd, order_type := t, quantity := q,
              price := pr, stop_price := sp }) :=
  ⟨fun _ h => vop_error_symbol h,
   fun _ _ h1 h2 => vop_error_side h1 h2,
   fun _ _ _ h1 h2 h3 => vop_error_type h1 h2 h3,
   fun _ _ _ _ h1 h2 h3 h4 => vop_error_qty h1 h2 h3 h4,
   fun _ _ _ _ _ h1 h2 h3 h4 h5 => vop_error_price h1 h2 h3 h4 h5,
   fun _ _ _ _ _ _ h1 h2 h3 h4 h5 h6 => vop_error_stop h1 h2 h3 h4 h5 h6,
   fun _ _ _ _ _ _ h1 h2 h3 h4 h5 h6 => vop_ok h1 h2 h3 h4 h5 h6⟩

/-- Witness for C8: with an invalid symbol, side, type and quantity all at
once, the reported error is the symbol one. -/
theorem claim_C8_witness :
    validate_order_params { symbol := "btc", side := "hold", type := "zzz", qty := "-1" } =
      .error "Symbol looks invalid (too short). Example: BTCUSDT." :=
  (claim_C8_first_failure_wins _).1 _ (by decide)

/-- Claim C9: every validated OrderParams has one of the three supported order
types, so the "Unsupported internal order type" fallback of
`_build_order_payload` is unreachable: payload construction always succeeds on
a validated intent. -/
theorem claim_C9_fallback_unreachable (a : Args) (p : OrderParams)
    (h : validate_order_params a = .ok p) :
    (p.order_type = "MARKET" ∨ p.order_type = "LIMIT" ∨ p.order_type = "STOP_LIMIT") ∧
    ∃ pay, BasicBot._build_order_payload p = .ok pay := by
  obtain ⟨-, -, h3, -, -, -⟩ := vop_ok_inversion h
  have hmem := validate_order_type_ok_mem h3
  refine ⟨hmem, ?_⟩
  rcases hmem with ht | ht | ht
  · exact ⟨Payload.mk p.symbol p.side "MARKET" p.quantity none none none,
      by simp [BasicBot._build_order_payload, ht]⟩
  · exact ⟨Payload.mk p.symbol p.side "LIMIT" p.quantity (some "GTC") p.price none,
      by simp [BasicBot._build_order_payload, ht]⟩
  · exact ⟨Payload.mk p.symbol p.side "STOP" p.quantity (some "GTC") p.price p.stop_price,
      by simp [BasicBot._build_order_payload, ht]⟩

set_option exponentiation.threshold 1200 in
set_option maxRecDepth 20000 in
/-- Witness for C9. -/
theorem claim_C9_witness :
    ∃ pay, BasicBot._build_order_payload
      (OrderParams.mk "BTCUSDT" "BUY" "MARKET" (.finite (mkRat 1 1)) none none) = .ok pay :=
  (claim_C9_fallback_unreachable
    { symbol := "BTCUSDT", side := "BUY", type := "MARKET", qty := "1" }
    (OrderParams.mk "BTCUSDT" "BUY" "MARKET" (.finite (mkRat 1 1)) none none)
    (by decide)).2


end BasicFuturesBot
